import Mathlib

/-!
Verification of the Agentspace-neo4j repository's core against its
natural-language specification.

The embedding models Python strings as `List Char` (all inputs of interest
are ASCII), Python's `str.upper`/`str.lower` as character maps,
`str.strip()` as dropping whitespace at both ends, the substring operator
`in` as `containsSub`, and `str.count` as non-overlapping greedy counting —
each faithful to CPython's documented behaviour on ASCII text.
-/

set_option maxRecDepth 100000

namespace AgentspaceNeo4j

/-- The whitespace characters Python's `str.strip()` removes (ASCII part). -/
def isPyWs (c : Char) : Bool :=
  c == ' ' || c == '\t' || c == '\n' || c == '\r' || c == '\x0b' || c == '\x0c'

/-- Python `str.upper()` on ASCII text (`Char.toUpper` is the same A-Z map). -/
def pyUpper (l : List Char) : List Char := l.map Char.toUpper

/-- Python `str.lower()` on ASCII text. -/
def pyLower (l : List Char) : List Char := l.map Char.toLower

/-- Python `str.strip()`: whitespace removed from both ends. -/
def pyStrip (l : List Char) : List Char :=
  ((l.dropWhile isPyWs).reverse.dropWhile isPyWs).reverse

/-- `pat` begins the list `l`. -/
def isPrefixL : List Char → List Char → Bool
  | [], _ => true
  | _ :: _, [] => false
  | a :: ps, b :: bs => a == b && isPrefixL ps bs

/-- Python's substring test `pat in l`. -/
def containsSub (pat : List Char) : List Char → Bool
  | [] => isPrefixL pat []
  | c :: rest => isPrefixL pat (c :: rest) || containsSub pat rest

/-- Helper of `countOccs` for a non-empty pattern `p :: ps`: the fuel is an
upper bound on the scan length (structural, so it evaluates in the kernel);
`countOccs` always supplies `l.length`, which is exact. -/
def countFromFuel (p : Char) (ps : List Char) : Nat → List Char → Nat
  | 0, _ => 0
  | _, [] => 0
  | fuel + 1, c :: rest =>
    if isPrefixL (p :: ps) (c :: rest) then
      1 + countFromFuel p ps fuel (rest.drop ps.length)
    else countFromFuel p ps fuel rest

/-- Python `str.count`: non-overlapping occurrences, scanned left to right. -/
def countOccs (pat l : List Char) : Nat :=
  match pat with
  | [] => l.length + 1
  | p :: ps => countFromFuel p ps l.length l

theorem isPrefixL_iff (pat l : List Char) :
    isPrefixL pat l = true ↔ ∃ t, l = pat ++ t := by
  induction pat generalizing l with
  | nil => simp [isPrefixL]
  | cons a ps ih =>
    cases l with
    | nil => simp [isPrefixL]
    | cons b bs =>
      simp only [isPrefixL, Bool.and_eq_true, beq_iff_eq, ih, List.cons_append]
      constructor
      · rintro ⟨rfl, t, rfl⟩; exact ⟨t, rfl⟩
      · rintro ⟨t, h⟩
        obtain ⟨h1, h2⟩ := List.cons.injEq .. ▸ h
        exact ⟨h1.symm, t, h2⟩

theorem containsSub_iff (pat l : List Char) :
    containsSub pat l = true ↔ ∃ a b, l = a ++ pat ++ b := by
  induction l with
  | nil =>
    simp only [containsSub, isPrefixL_iff]
    constructor
    · rintro ⟨t, h⟩
      exact ⟨[], t, by simpa using h⟩
    · rintro ⟨a, b, h⟩
      refine ⟨b, ?_⟩
      rcases List.append_eq_nil.mp (List.append_eq_nil.mp h.symm).1 with ⟨rfl, rfl⟩
      simpa using h
  | cons c rest ih =>
    simp only [containsSub, Bool.or_eq_true, isPrefixL_iff, ih]
    constructor
    · rintro (⟨t, h⟩ | ⟨a, b, rfl⟩)
      · exact ⟨[], t, by simpa using h⟩
      · exact ⟨c :: a, b, by simp⟩
    · rintro ⟨a, b, h⟩
      cases a with
      | nil => exact Or.inl ⟨b, by simpa using h⟩
      | cons x xs =>
        obtain ⟨-, h2⟩ := List.cons.injEq .. ▸ h
        exact Or.inr ⟨xs, b, h2⟩

/-- Helper of `containsSub_dropWhile`: the occurrence written out. -/
theorem containsSub_dropWhile_aux (p : Char → Bool) (c : Char) (pt b : List Char)
    (hc : p c = false) :
    ∀ a : List Char, containsSub (c :: pt) (List.dropWhile p (a ++ (c :: pt) ++ b)) = true := by
  intro a
  induction a with
  | nil =>
    rw [List.nil_append, List.cons_append, List.dropWhile_cons, if_neg (by simp [hc])]
    exact (containsSub_iff _ _).mpr ⟨[], b, by simp⟩
  | cons x xs ih =>
    have hsh : ((x :: xs) ++ (c :: pt)) ++ b = x :: ((xs ++ (c :: pt)) ++ b) := by
      simp only [List.cons_append]
    rw [hsh, List.dropWhile_cons]
    by_cases hx : p x = true
    · rw [if_pos (by simp [hx])]
      exact ih
    · rw [if_neg (by simpa using hx)]
      exact (containsSub_iff _ _).mpr ⟨x :: xs, b, hsh.symm⟩

/-- Dropping a leading run of `p`-characters keeps any occurrence of a
pattern whose first character refutes `p`. -/
theorem containsSub_dropWhile (p : Char → Bool) (c : Char) (pt l : List Char)
    (hc : p c = false) (h : containsSub (c :: pt) l = true) :
    containsSub (c :: pt) (l.dropWhile p) = true := by
  obtain ⟨a, b, rfl⟩ := (containsSub_iff _ _).mp h
  exact containsSub_dropWhile_aux p c pt b hc a

theorem containsSub_reverse_iff (pat l : List Char) :
    containsSub pat.reverse l.reverse = true ↔ containsSub pat l = true := by
  simp only [containsSub_iff]
  constructor
  · rintro ⟨a, b, h⟩
    refine ⟨b.reverse, a.reverse, ?_⟩
    have h2 := congrArg List.reverse h
    simpa [List.reverse_append, List.append_assoc] using h2
  · rintro ⟨a, b, rfl⟩
    exact ⟨b.reverse, a.reverse, by simp [List.reverse_append, List.append_assoc]⟩

theorem dropWhile_decomp (p : Char → Bool) (l : List Char) :
    ∃ t, l = t ++ l.dropWhile p := by
  induction l with
  | nil => exact ⟨[], rfl⟩
  | cons c rest ih =>
    by_cases hc : p c = true
    · obtain ⟨t, ht⟩ := ih
      refine ⟨c :: t, ?_⟩
      rw [List.dropWhile_cons, if_pos (by simp [hc]), List.cons_append, ← ht]
    · refine ⟨[], ?_⟩
      rw [List.dropWhile_cons, if_neg (by simpa using hc), List.nil_append]

theorem pyStrip_decomp (l : List Char) : ∃ t u, l = t ++ pyStrip l ++ u := by
  obtain ⟨t1, h1⟩ := dropWhile_decomp isPyWs l
  obtain ⟨t2, h2⟩ := dropWhile_decomp isPyWs (l.dropWhile isPyWs).reverse
  refine ⟨t1, t2.reverse, ?_⟩
  have h3 : l.dropWhile isPyWs = pyStrip l ++ t2.reverse := by
    have h4 := congrArg List.reverse h2
    simpa [pyStrip, List.reverse_append] using h4
  calc l = t1 ++ l.dropWhile isPyWs := h1
    _ = t1 ++ (pyStrip l ++ t2.reverse) := by rw [h3]
    _ = t1 ++ pyStrip l ++ t2.reverse := (List.append_assoc _ _ _).symm

/-- An occurrence in the stripped string was an occurrence in the string. -/
theorem containsSub_of_pyStrip (pat l : List Char)
    (h : containsSub pat (pyStrip l) = true) : containsSub pat l = true := by
  obtain ⟨t, u, hl⟩ := pyStrip_decomp l
  obtain ⟨a, b, hs⟩ := (containsSub_iff _ _).mp h
  exact (containsSub_iff _ _).mpr ⟨t ++ a, b ++ u, by rw [hl, hs]; simp [List.append_assoc]⟩

/-- An occurrence of a pattern whose first and last characters are not
whitespace survives `str.strip()`. -/
theorem containsSub_pyStrip (c : Char) (pt l : List Char)
    (hc : isPyWs c = false)
    (hlast : ((c :: pt).getLast?.all fun x => !isPyWs x) = true)
    (h : containsSub (c :: pt) l = true) :
    containsSub (c :: pt) (pyStrip l) = true := by
  have h1 := containsSub_dropWhile isPyWs c pt l hc h
  obtain ⟨d, ds, hrev⟩ : ∃ d ds, (c :: pt).reverse = d :: ds := by
    cases hr : (c :: pt).reverse with
    | nil => exact absurd (congrArg List.length hr) (by simp)
    | cons d ds => exact ⟨d, ds, rfl⟩
  have hd : isPyWs d = false := by
    have hg : (c :: pt).getLast? = some d := by
      rw [← List.head?_reverse, hrev]; rfl
    rw [hg] at hlast
    simpa using hlast
  have h2 : containsSub (d :: ds) (l.dropWhile isPyWs).reverse = true := by
    rw [← hrev]
    exact (containsSub_reverse_iff _ _).mpr h1
  have h3 := containsSub_dropWhile isPyWs d ds _ hd h2
  have h4 : containsSub (d :: ds).reverse
      (((l.dropWhile isPyWs).reverse.dropWhile isPyWs)).reverse = true :=
    (containsSub_reverse_iff _ _).mpr h3
  rw [← hrev] at h4
  simpa [pyStrip] using h4

/-- A substring of a substring is a substring. -/
theorem containsSub_of_mid (p q l : List Char)
    (hq : containsSub p q = true) (hl : containsSub q l = true) :
    containsSub p l = true := by
  obtain ⟨a, b, rfl⟩ := (containsSub_iff _ _).mp hl
  obtain ⟨x, y, rfl⟩ := (containsSub_iff _ _).mp hq
  exact (containsSub_iff _ _).mpr ⟨a ++ x, y ++ b, by simp [List.append_assoc]⟩

/-- An occurrence inside the right part of an append is an occurrence. -/
theorem containsSub_append_right (p a b : List Char)
    (h : containsSub p b = true) : containsSub p (a ++ b) = true := by
  obtain ⟨x, y, rfl⟩ := (containsSub_iff _ _).mp h
  exact (containsSub_iff _ _).mpr ⟨a ++ x, y, by simp [List.append_assoc]⟩

/-- An occurrence inside the left part of an append is an occurrence. -/
theorem containsSub_append_left (p a b : List Char)
    (h : containsSub p a = true) : containsSub p (a ++ b) = true := by
  obtain ⟨x, y, rfl⟩ := (containsSub_iff _ _).mp h
  exact (containsSub_iff _ _).mpr ⟨x, y ++ b, by simp [List.append_assoc]⟩

/-! ## The query-safety validators

`src/neo4j_database_agent/tools.py` and `src/agents/agent.py` each define
`_validate_query_safety`; the two differ only in the schema-procedure
deny-list branch. Both first compute `query_upper = cypher_query.upper().strip()`
and test each deny-listed fragment with Python's substring operator. -/

/-- `cypher_query.upper().strip()` of both validators. -/
def queryUpper (q : String) : List Char := pyStrip (pyUpper q.data)

/-- `cypher_query.lower()` of both validators. -/
def queryLower (q : String) : List Char := pyLower q.data

/-- `write_keywords` of both validators (tools.py lines 85-88). -/
def write_keywords : List (List Char) :=
  ["CREATE".data, "MERGE".data, "SET".data, "DELETE".data, "REMOVE".data,
   "DROP".data, "DETACH DELETE".data, "FOREACH".data, "LOAD CSV".data]

/-- `dangerous_procedures` of both validators (tools.py lines 97-100). -/
def dangerous_procedures : List (List Char) :=
  ["apoc.create".data, "apoc.merge".data, "apoc.refactor".data,
   "apoc.periodic.commit".data, "db.create".data, "db.drop".data,
   "dbms.security".data]

/-- `schema_procedures` of the tools.py validator only (lines 102-105). -/
def schema_procedures : List (List Char) :=
  ["db.labels".data, "db.relationshipTypes".data, "db.schema".data,
   "db.propertyKeys".data, "db.constraints".data, "db.indexes".data,
   "apoc.meta".data]

/-- `any(fragment in text for fragment in pats)`. -/
def anyContains (pats : List (List Char)) (l : List Char) : Bool :=
  pats.any fun p => containsSub p l

namespace NeoTools

/-- `_validate_query_safety` of `src/neo4j_database_agent/tools.py` (lines
69-117): reject empty queries, queries whose stripped upper-case form
contains a write keyword, `CALL` queries referencing a dangerous or a
schema-introspection procedure fragment (tested on the lower-cased query),
and queries with more than 10 `MATCH` occurrences. -/
def _validate_query_safety (cypher_query : String) : Bool :=
  if cypher_query.data.isEmpty then false
  else if anyContains write_keywords (queryUpper cypher_query) then false
  else if containsSub "CALL".data (queryUpper cypher_query) &&
      (anyContains dangerous_procedures (queryLower cypher_query) ||
       anyContains schema_procedures (queryLower cypher_query)) then false
  else if 10 < countOccs "MATCH".data (queryUpper cypher_query) then false
  else true

end NeoTools

namespace AgentsAgent

/-- `_validate_query_safety` of `src/agents/agent.py` (lines 184-225): the
same checks as the tools.py copy except that no schema-procedure list is
consulted. -/
def _validate_query_safety (cypher_query : String) : Bool :=
  if cypher_query.data.isEmpty then false
  else if anyContains write_keywords (queryUpper cypher_query) then false
  else if containsSub "CALL".data (queryUpper cypher_query) &&
      anyContains dangerous_procedures (queryLower cypher_query) then false
  else if 10 < countOccs "MATCH".data (queryUpper cypher_query) then false
  else true

end AgentsAgent

/-- The eight write keywords claim C1 lists (the code's list minus
`DETACH DELETE`, which contains `DELETE`). -/
def c1_write_keywords : List (List Char) :=
  ["CREATE".data, "MERGE".data, "SET".data, "DELETE".data, "REMOVE".data,
   "DROP".data, "FOREACH".data, "LOAD CSV".data]

/-- Each keyword of `c1_write_keywords` is a code keyword, is non-empty, and
starts and ends with a non-whitespace character (so it survives `strip()`). -/
theorem c1_write_keywords_facts :
    (c1_write_keywords.all fun k =>
      decide (k ∈ write_keywords) && !k.isEmpty &&
      (k.head?.all fun x => !isPyWs x) &&
      (k.getLast?.all fun x => !isPyWs x)) = true := by decide

/-- From one contained write keyword, the validator's `any` test fires. -/
theorem anyContains_write_of_kw (q : String) (kw : List Char)
    (hmem : kw ∈ c1_write_keywords)
    (hsub : containsSub kw (pyUpper q.data) = true) :
    anyContains write_keywords (queryUpper q) = true := by
  have hfacts := List.all_eq_true.mp c1_write_keywords_facts kw hmem
  obtain ⟨⟨⟨hmemW, hne⟩, hhead⟩, hlast⟩ :=
    by simpa only [Bool.and_eq_true] using hfacts
  cases hkw : kw with
  | nil => rw [hkw] at hne; simp at hne
  | cons c pt =>
    rw [hkw] at hsub hhead hlast
    have hc : isPyWs c = false := by simpa using hhead
    have hstrip := containsSub_pyStrip c pt (pyUpper q.data) hc hlast hsub
    exact List.any_eq_true.mpr ⟨kw, of_decide_eq_true hmemW, by rw [hkw]; exact hstrip⟩

/-- C1: for every query string that is empty or that contains one of the
write-operation keywords CREATE, MERGE, SET, DELETE, REMOVE, DROP, FOREACH,
LOAD CSV as a substring in any case combination (i.e. the upper-cased query
contains the upper-case keyword), `_validate_query_safety` of
`src/neo4j_database_agent/tools.py` returns `false`. -/
theorem C1_validator_rejects_empty_and_write_keywords (q : String)
    (h : q.data = [] ∨ ∃ kw ∈ c1_write_keywords, containsSub kw (pyUpper q.data) = true) :
    NeoTools._validate_query_safety q = false := by
  rcases h with he | ⟨kw, hmem, hsub⟩
  · unfold NeoTools._validate_query_safety
    rw [if_pos (by simp [he])]
  · have hany := anyContains_write_of_kw q kw hmem hsub
    unfold NeoTools._validate_query_safety
    by_cases hE : q.data.isEmpty = true
    · rw [if_pos hE]
    · rw [if_neg hE, if_pos hany]

/-- C1 witness: a mixed-case CREATE query is rejected. -/
theorem C1_witness : NeoTools._validate_query_safety "CrEaTe (n:Person)" = false :=
  C1_validator_rejects_empty_and_write_keywords "CrEaTe (n:Person)"
    (Or.inr ⟨"CREATE".data, by decide, by decide⟩)

/-- C2 counterexample: a query consisting solely of MATCH and RETURN clauses
and containing none of the write keywords, yet rejected, because it has
eleven MATCH occurrences and the validator also enforces a ten-MATCH
complexity ceiling (tools.py line 113). -/
def elevenMatchQuery : String :=
  "MATCH (a) MATCH (a) MATCH (a) MATCH (a) MATCH (a) MATCH (a) MATCH (a) MATCH (a) MATCH (a) MATCH (a) MATCH (a) RETURN a"

/-- C2 is false as stated: `elevenMatchQuery` is non-empty, consists solely
of MATCH/RETURN clauses, contains no write keyword in any case combination,
and still `_validate_query_safety` returns `false`. -/
theorem C2_counterexample :
    elevenMatchQuery.data ≠ [] ∧
    (c1_write_keywords.all fun kw =>
      !containsSub kw (pyUpper elevenMatchQuery.data)) = true ∧
    countOccs "MATCH".data (queryUpper elevenMatchQuery) = 11 ∧
    NeoTools._validate_query_safety elevenMatchQuery = false :=
  ⟨by decide, by decide, by decide, by decide⟩

/-- C2 (amended): for every non-empty query string that contains none of the
eight write keywords in any case combination, references none of the guarded
procedure-name fragments, and has at most ten occurrences of MATCH — in
particular any query consisting solely of at most ten MATCH/RETURN/WHERE/
WITH/ORDER BY/LIMIT clauses — `_validate_query_safety` of
`src/neo4j_database_agent/tools.py` returns `true`. -/
theorem C2_read_only_queries_accepted (q : String)
    (hne : q.data ≠ [])
    (hw : ∀ kw ∈ c1_write_keywords, containsSub kw (pyUpper q.data) = false)
    (hdang : anyContains dangerous_procedures (queryLower q) = false)
    (hschema : anyContains schema_procedures (queryLower q) = false)
    (hm : countOccs "MATCH".data (queryUpper q) ≤ 10) :
    NeoTools._validate_query_safety q = true := by
  have hE : q.data.isEmpty = false := by
    cases hq : q.data with
    | nil => exact absurd hq hne
    | cons c rest => rfl
  have hany : anyContains write_keywords (queryUpper q) = false := by
    by_contra hc
    rw [Bool.not_eq_false] at hc
    obtain ⟨kw, hmem, hsub⟩ := List.any_eq_true.mp hc
    have hsub2 : containsSub kw (pyUpper q.data) = true :=
      containsSub_of_pyStrip kw (pyUpper q.data) hsub
    have h8 : ∃ kw8 ∈ c1_write_keywords, containsSub kw8 kw = true := by
      fin_cases hmem
      · exact ⟨"CREATE".data, by decide, by decide⟩
      · exact ⟨"MERGE".data, by decide, by decide⟩
      · exact ⟨"SET".data, by decide, by decide⟩
      · exact ⟨"DELETE".data, by decide, by decide⟩
      · exact ⟨"REMOVE".data, by decide, by decide⟩
      · exact ⟨"DROP".data, by decide, by decide⟩
      · exact ⟨"DELETE".data, by decide, by decide⟩
      · exact ⟨"FOREACH".data, by decide, by decide⟩
      · exact ⟨"LOAD CSV".data, by decide, by decide⟩
    obtain ⟨kw8, hmem8, hin⟩ := h8
    have := containsSub_of_mid kw8 kw (pyUpper q.data) hin hsub2
    rw [hw kw8 hmem8] at this
    exact Bool.false_ne_true this
  unfold NeoTools._validate_query_safety
  rw [if_neg (by simp [hE]), if_neg (by simp [hany]),
    if_neg (by simp [hdang, hschema]), if_neg (by omega)]

/-- C2 witness: the claim's example query `MATCH (c:Customer) RETURN c
LIMIT 10` is accepted. -/
theorem C2_witness :
    NeoTools._validate_query_safety "MATCH (c:Customer) RETURN c LIMIT 10" = true :=
  C2_read_only_queries_accepted "MATCH (c:Customer) RETURN c LIMIT 10"
    (by decide) (by decide) (by decide) (by decide) (by decide)

/-- C10: the tools.py validator refines the agents-module validator — it
equals the agents-module verdict conjoined with the one extra rejection of
CALL queries referencing a schema-introspection procedure fragment, and in
particular whenever the tools.py copy accepts a query the agents copy does
too. -/
theorem C10_tools_validator_refines_agents (q : String) :
    NeoTools._validate_query_safety q =
      (AgentsAgent._validate_query_safety q &&
        !(containsSub "CALL".data (queryUpper q) &&
          anyContains schema_procedures (queryLower q)))
    ∧ (NeoTools._validate_query_safety q = true →
        AgentsAgent._validate_query_safety q = true) := by
  have heq : NeoTools._validate_query_safety q =
      (AgentsAgent._validate_query_safety q &&
        !(containsSub "CALL".data (queryUpper q) &&
          anyContains schema_procedures (queryLower q))) := by
    unfold NeoTools._validate_query_safety AgentsAgent._validate_query_safety
    cases he : q.data.isEmpty <;>
      cases hw : anyContains write_keywords (queryUpper q) <;>
        cases hc : containsSub "CALL".data (queryUpper q) <;>
          cases hd : anyContains dangerous_procedures (queryLower q) <;>
            cases hs : anyContains schema_procedures (queryLower q) <;>
              by_cases hm : 10 < countOccs "MATCH".data (queryUpper q) <;>
                simp [he, hw, hc, hd, hs, hm]
  refine ⟨heq, fun h => ?_⟩
  rw [heq] at h
  simp only [Bool.and_eq_true] at h
  exact h.1

/-! ## Python values

The values flowing through the tools: JSON-ish data plus the temporal types
`_make_serializable` converts. Python `float` is modelled as an exact
rational (the float values the claims exercise are small integers, where the
two agree); a `neo4j.time` temporal value carries its canonical `str()`
rendering. Lists and mappings are separate mutual inductives so that plain
structural recursion and induction apply. -/

/-- A Python `float`, modelled as an exact fraction (numerator over a
positive denominator, not necessarily reduced). Every float the embedded
code manufactures is produced by `ofInt`, `add`, `mulInt` or `div` by a
positive value, so the denominator stays positive; no operation needs a
gcd, which keeps every computation kernel-reducible. -/
structure PyFloat where
  num : Int
  den : Int

/-- `float(n)`. -/
def PyFloat.ofInt (n : Int) : PyFloat := ⟨n, 1⟩

/-- Exact float addition. -/
def PyFloat.add (a b : PyFloat) : PyFloat :=
  ⟨a.num * b.den + b.num * a.den, a.den * b.den⟩

/-- Exact float multiplication by an integer. -/
def PyFloat.mulInt (a : PyFloat) (n : Int) : PyFloat := ⟨a.num * n, a.den⟩

/-- Exact float division (the embedded code only divides by positives). -/
def PyFloat.div (a b : PyFloat) : PyFloat := ⟨a.num * b.den, a.den * b.num⟩

/-- `a < b`, by cross-multiplication (valid for positive denominators). -/
def PyFloat.ltF (a b : PyFloat) : Bool := a.num * b.den < b.num * a.den

/-- Python `max(a, b)`. -/
def PyFloat.maxF (a b : PyFloat) : PyFloat := if PyFloat.ltF a b then b else a

/-- `value == int(value)`: the float is integral. -/
def PyFloat.isIntegral (a : PyFloat) : Bool := a.num % a.den == 0

/-- Python `int(float)`: truncation toward zero. -/
def PyFloat.trunc (a : PyFloat) : Int := Int.tdiv a.num a.den

/-- A Python `datetime.date`. -/
structure PyDate where
  year : Nat
  month : Nat
  day : Nat

/-- A Python `datetime.datetime`. -/
structure PyDateTime where
  year : Nat
  month : Nat
  day : Nat
  hour : Nat
  minute : Nat
  second : Nat
  microsecond : Nat

mutual
inductive PyVal where
  | none : PyVal
  | bool (b : Bool) : PyVal
  | int (n : Int) : PyVal
  | float (f : PyFloat) : PyVal
  | str (s : String) : PyVal
  | date (d : PyDate) : PyVal
  | datetime (d : PyDateTime) : PyVal
  | neoTemporal (canonical : String) : PyVal
  | list (xs : PyArr) : PyVal
  | dict (kvs : PyObj) : PyVal
inductive PyArr where
  | nil : PyArr
  | cons (hd : PyVal) (tl : PyArr) : PyArr
inductive PyObj where
  | nil : PyObj
  | cons (key : String) (val : PyVal) (tl : PyObj) : PyObj
end

/-- `n` rendered in decimal, zero-padded on the left to `w` digits. -/
def padNum (n : Nat) (w : Nat) : String :=
  let s := toString n
  String.mk (List.replicate (w - s.length) '0') ++ s

/-- `str()` of a Python `date`: ISO `YYYY-MM-DD`. -/
def pyDateStr (d : PyDate) : String :=
  padNum d.year 4 ++ "-" ++ padNum d.month 2 ++ "-" ++ padNum d.day 2

/-- `str()` of a Python `datetime`: ISO with a space separator, the
microseconds only when non-zero. -/
def pyDateTimeStr (d : PyDateTime) : String :=
  padNum d.year 4 ++ "-" ++ padNum d.month 2 ++ "-" ++ padNum d.day 2 ++ " " ++
  padNum d.hour 2 ++ ":" ++ padNum d.minute 2 ++ ":" ++ padNum d.second 2 ++
  (if d.microsecond == 0 then "" else "." ++ padNum d.microsecond 6)

mutual
/-- `_make_serializable` of `src/neo4j_database_agent/tools.py` (lines
25-37): recurse through dicts and lists, convert any `date`/`datetime` or
`neo4j.time` temporal value to its `str()` form, leave everything else. -/
def _make_serializable : PyVal → PyVal
  | .dict kvs => .dict (serObj kvs)
  | .list xs => .list (serArr xs)
  | .date d => .str (pyDateStr d)
  | .datetime d => .str (pyDateTimeStr d)
  | .neoTemporal s => .str s
  | v => v

/-- The list comprehension of `_make_serializable`. -/
def serArr : PyArr → PyArr
  | .nil => .nil
  | .cons x xs => .cons (_make_serializable x) (serArr xs)

/-- The dict comprehension of `_make_serializable`. -/
def serObj : PyObj → PyObj
  | .nil => .nil
  | .cons k v kvs => .cons k (_make_serializable v) (serObj kvs)
end

mutual
/-- No `date`/`datetime`/`neo4j.time` value anywhere in `v`. -/
def temporalFree : PyVal → Bool
  | .date _ => false
  | .datetime _ => false
  | .neoTemporal _ => false
  | .list xs => temporalFreeArr xs
  | .dict kvs => temporalFreeObj kvs
  | _ => true

def temporalFreeArr : PyArr → Bool
  | .nil => true
  | .cons x xs => temporalFree x && temporalFreeArr xs

def temporalFreeObj : PyObj → Bool
  | .nil => true
  | .cons _ v kvs => temporalFree v && temporalFreeObj kvs
end

mutual
theorem mkSer_temporalFree : ∀ v : PyVal, temporalFree (_make_serializable v) = true
  | .none => rfl
  | .bool _ => rfl
  | .int _ => rfl
  | .float _ => rfl
  | .str _ => rfl
  | .date _ => rfl
  | .datetime _ => rfl
  | .neoTemporal _ => rfl
  | .list xs => by
    simp only [_make_serializable, temporalFree]
    exact serArr_temporalFree xs
  | .dict kvs => by
    simp only [_make_serializable, temporalFree]
    exact serObj_temporalFree kvs

theorem serArr_temporalFree : ∀ xs : PyArr, temporalFreeArr (serArr xs) = true
  | .nil => rfl
  | .cons x xs => by
    simp only [serArr, temporalFreeArr, Bool.and_eq_true]
    exact ⟨mkSer_temporalFree x, serArr_temporalFree xs⟩

theorem serObj_temporalFree : ∀ kvs : PyObj, temporalFreeObj (serObj kvs) = true
  | .nil => rfl
  | .cons k v kvs => by
    simp only [serObj, temporalFreeObj, Bool.and_eq_true]
    exact ⟨mkSer_temporalFree v, serObj_temporalFree kvs⟩
end

mutual
theorem mkSer_idem : ∀ v : PyVal,
    _make_serializable (_make_serializable v) = _make_serializable v
  | .none => rfl
  | .bool _ => rfl
  | .int _ => rfl
  | .float _ => rfl
  | .str _ => rfl
  | .date _ => rfl
  | .datetime _ => rfl
  | .neoTemporal _ => rfl
  | .list xs => by
    simp only [_make_serializable]
    rw [serArr_idem xs]
  | .dict kvs => by
    simp only [_make_serializable]
    rw [serObj_idem kvs]

theorem serArr_idem : ∀ xs : PyArr, serArr (serArr xs) = serArr xs
  | .nil => rfl
  | .cons x xs => by
    simp only [serArr]
    rw [mkSer_idem x, serArr_idem xs]

theorem serObj_idem : ∀ kvs : PyObj, serObj (serObj kvs) = serObj kvs
  | .nil => rfl
  | .cons k v kvs => by
    simp only [serObj]
    rw [mkSer_idem v, serObj_idem kvs]
end

/-- C7: the result-serialization step maps every date, datetime and
`neo4j.time` temporal value — at any nesting depth — to its canonical
string form (no temporal value survives, and each temporal leaf becomes
exactly its canonical string), and it is idempotent: applying it to its own
output, and in particular to any string, returns the value unchanged. -/
theorem C7_serialization_canonical_and_idempotent :
    (∀ v, temporalFree (_make_serializable v) = true)
    ∧ (∀ d, _make_serializable (.date d) = .str (pyDateStr d))
    ∧ (∀ d, _make_serializable (.datetime d) = .str (pyDateTimeStr d))
    ∧ (∀ s, _make_serializable (.neoTemporal s) = .str s)
    ∧ (∀ v, _make_serializable (_make_serializable v) = _make_serializable v)
    ∧ (∀ s, _make_serializable (.str s) = .str s) :=
  ⟨mkSer_temporalFree, fun _ => rfl, fun _ => rfl, fun _ => rfl,
    mkSer_idem, fun _ => rfl⟩

/-! ## Rendering of Python values

`str()`/`repr()` of the values above, plus the number-format specs the
formatter and the chart use (`{:,.0f}`, `{:,.2f}`, `{:.1f}`). -/

/-- An opening brace as text. -/
def lbraceS : String := "\x7b"

/-- A closing brace as text. -/
def rbraceS : String := "\x7d"

/-- Insert a thousands separator into a reversed digit list; the counter is
the position (starting at 1) of the next digit, counted from the right. -/
def commaRevAux : List Char → Nat → List Char
  | [], _ => []
  | [c], _ => [c]
  | c :: rest, i =>
    if i % 3 == 0 then c :: ',' :: commaRevAux rest 1
    else c :: commaRevAux rest (i + 1)

/-- `n` in decimal with thousands separators (Python's `,` format flag). -/
def commaGroupNat (n : Nat) : String :=
  String.mk ((commaRevAux (toString n).data.reverse 1).reverse)

/-- A signed integer with thousands separators. -/
def commaGroupInt (n : Int) : String :=
  (if n < 0 then "-" else "") ++ commaGroupNat n.natAbs

/-- `t * scale` rounded to the nearest integer, ties to even — the rounding
Python's fixed-point format specs apply (to the exact value here; CPython
rounds the binary double, which agrees on the values this code produces). -/
def roundHalfEvenScaled (t : PyFloat) (scale : Int) : Int :=
  let num := t.num * scale
  let den := t.den
  let f := Int.fdiv num den
  let r := num - f * den
  if 2 * r < den then f
  else if den < 2 * r then f + 1
  else if f % 2 == 0 then f else f + 1

/-- `str()` of a Python float: the reduced fraction as an exact decimal
(`n.0` for integral values). A fraction with no finite decimal expansion is
rendered `num/den`; no float the embedded code builds from the claims'
integer data reaches that case. -/
def pyFloatStr (f : PyFloat) : String :=
  let g : Int := (Nat.gcd f.num.natAbs f.den.natAbs : Nat)
  let n := Int.tdiv f.num g
  let d := Int.tdiv f.den g
  if d == 1 then toString n ++ ".0"
  else match (List.range 31).find? (fun k => (10 ^ k * n) % d == 0) with
    | some k =>
      let m := Int.tdiv (10 ^ k * n) d
      let a := m.natAbs
      (if m < 0 then "-" else "") ++ toString (a / 10 ^ k) ++ "." ++ padNum (a % 10 ^ k) k
    | Option.none => toString n ++ "/" ++ toString d

mutual
/-- Python `str()` of a value as the formatter's `str(value)` sees it. -/
def pyStr : PyVal → String
  | .none => "None"
  | .bool b => if b then "True" else "False"
  | .int n => toString n
  | .float f => pyFloatStr f
  | .str s => s
  | .date d => pyDateStr d
  | .datetime d => pyDateTimeStr d
  | .neoTemporal s => s
  | .list xs => "[" ++ reprArr xs ++ "]"
  | .dict kvs => lbraceS ++ reprObj kvs ++ rbraceS

/-- Python `repr()`, reached by `str()` on nested containers. -/
def pyReprV : PyVal → String
  | .none => "None"
  | .bool b => if b then "True" else "False"
  | .int n => toString n
  | .float f => pyFloatStr f
  | .str s => "'" ++ s ++ "'"
  | .date d =>
    "datetime.date(" ++ toString d.year ++ ", " ++ toString d.month ++ ", " ++
      toString d.day ++ ")"
  | .datetime d =>
    "datetime.datetime(" ++ toString d.year ++ ", " ++ toString d.month ++ ", " ++
      toString d.day ++ ")"
  | .neoTemporal s => s
  | .list xs => "[" ++ reprArr xs ++ "]"
  | .dict kvs => lbraceS ++ reprObj kvs ++ rbraceS

def reprArr : PyArr → String
  | .nil => ""
  | .cons x .nil => pyReprV x
  | .cons x xs => pyReprV x ++ ", " ++ reprArr xs

def reprObj : PyObj → String
  | .nil => ""
  | .cons k v .nil => "'" ++ k ++ "': " ++ pyReprV v
  | .cons k v kvs => "'" ++ k ++ "': " ++ pyReprV v ++ ", " ++ reprObj kvs
end

/-! ## The table formatter

`_format_results_as_table` of `src/neo4j_database_agent/tools.py` (lines
119-190). A result record is a Python dict row, modelled as an association
list in insertion order. -/

/-- One query-result record. -/
abbrev Record := List (String × PyVal)

/-- Python `result.get(key)` (no default). -/
def recGet (r : Record) (k : String) : Option PyVal :=
  match r.find? (fun kv => kv.1 == k) with
  | some kv => some kv.2
  | Option.none => Option.none

/-- `str(result.get(key, ''))`. -/
def strCell (r : Record) (k : String) : String :=
  match recGet r k with
  | some v => pyStr v
  | Option.none => ""

/-- `f-string` left justification `f"{s:<{w}}"`. -/
def padTo (s : String) (w : Nat) : String :=
  s ++ String.mk (List.replicate (w - s.length) ' ')

/-- Cell truncation (lines 160-161). The width is at least 3 whenever the
branch fires — a value longer than the width forces the 20-character cap. -/
def truncCell (s : String) (w : Nat) : String :=
  if w < s.length then String.mk (s.data.take (w - 3)) ++ "..." else s

/-- `col_widths[key]` (lines 144-146): widest of header and cells, capped
at 20. -/
def colWidth (results : List Record) (k : String) : Nat :=
  min (max k.length ((results.map fun r => (strCell r k).length).foldl max 0)) 20

/-- The markdown header row (line 149). -/
def headerRow (keys : List String) (cw : String → Nat) : String :=
  "| " ++ String.intercalate " | " (keys.map fun k => padTo k (cw k)) ++ " |"

/-- The markdown separator row (line 150). -/
def sepRow (keys : List String) (cw : String → Nat) : String :=
  "|" ++
    String.intercalate "|"
      (keys.map fun k => ":" ++ String.mk (List.replicate (cw k) '-') ++ ":") ++
  "|"

/-- One markdown data row (lines 156-165). -/
def dataRow (keys : List String) (cw : String → Nat) (r : Record) : String :=
  "| " ++
    String.intercalate " | "
      (keys.map fun k => padTo (truncCell (strCell r k) (cw k)) (cw k)) ++
  " |"

/-- Python `isinstance(value, (int, float))` — `bool` is an `int` subclass. -/
def isNumericPy : Option PyVal → Bool
  | some (.int _) => true
  | some (.float _) => true
  | some (.bool _) => true
  | _ => false

/-- Python `float(value)` on a numeric value. -/
def toFloatPy : PyVal → PyFloat
  | .int n => PyFloat.ofInt n
  | .float f => f
  | .bool b => PyFloat.ofInt (if b then 1 else 0)
  | _ => PyFloat.ofInt 0

/-- `sum(float(result.get(key, 0)) for result in results if
isinstance(result.get(key), (int, float)))` (line 174). -/
def columnTotal (results : List Record) (k : String) : PyFloat :=
  (results.filterMap fun r =>
    if isNumericPy (recGet r k) then some (toFloatPy ((recGet r k).getD PyVal.none))
    else Option.none).foldl PyFloat.add (PyFloat.ofInt 0)

/-- `f"{total:,.0f}" if total == int(total) else f"{total:,.2f}"`
(line 184). -/
def formattedTotal (total : PyFloat) : String :=
  if total.isIntegral then commaGroupInt (Int.tdiv total.num total.den)
  else
    let n := roundHalfEvenScaled total 100
    (if n < 0 then "-" else "") ++ commaGroupNat (n.natAbs / 100) ++ "." ++
      padNum (n.natAbs % 100) 2

/-- `numeric_totals` (lines 171-178): the keys whose column total is
positive, with their totals, in key order. -/
def numericTotals (results : List Record) (keys : List String) :
    List (String × PyFloat) :=
  keys.filterMap fun k =>
    let total := columnTotal results k
    if PyFloat.ltF (PyFloat.ofInt 0) total then some (k, total) else Option.none

/-- The summary block (lines 180-185). -/
def summaryLines (results : List Record) (keys : List String) : List String :=
  let nt := numericTotals results keys
  if nt.isEmpty then []
  else "" :: "**Summary:**" ::
    nt.map fun kt => "- Total " ++ kt.1 ++ ": " ++ formattedTotal kt.2

/-- The `output` list of the multi-record branch (lines 140-188); the
summary and row-count block is guarded by `len(results) > 1` in the source,
which always holds on this branch. -/
def formatTableLines (results : List Record) (keys : List String) : List String :=
  (headerRow keys (colWidth results) :: sepRow keys (colWidth results) ::
    results.map (dataRow keys (colWidth results)))
  ++ summaryLines results keys
  ++ ["", "*Total rows: " ++ toString results.length ++ "*"]

/-- `_format_results_as_table` (lines 119-190): `"No results found."` for an
empty list or an empty first record, a key-value block for a single record,
and a markdown table with summary for several. -/
def _format_results_as_table (results : List Record) : String :=
  match results with
  | [] => "No results found."
  | r0 :: rest =>
    if r0.isEmpty then "No results found."
    else if rest.isEmpty then
      String.intercalate "\n" (r0.map fun kv => "**" ++ kv.1 ++ "**: " ++ pyStr kv.2)
    else String.intercalate "\n" (formatTableLines (r0 :: rest) (r0.map Prod.fst))

/-- C8: the formatter's three specified cases — the fixed no-results string
for `[]`; one key-value line per field for a single record (two lines for
`name`/`age`); and for the two city/count records a two-row markdown table
with header columns `city` and `count` plus the summary line totalling
`count` to 8. -/
theorem C8_formatter_cases :
    _format_results_as_table [] = "No results found."
    ∧ _format_results_as_table [[("name", .str "Alice"), ("age", .int 30)]] =
        "**name**: Alice\n**age**: 30"
    ∧ _format_results_as_table
        [[("city", .str "NYC"), ("count", .int 5)],
         [("city", .str "LA"), ("count", .int 3)]] =
      "| city | count |\n" ++
      "|:----:|:-----:|\n" ++
      "| NYC  | 5     |\n" ++
      "| LA   | 3     |\n" ++
      "\n" ++
      "**Summary:**\n" ++
      "- Total count: 8\n" ++
      "\n" ++
      "*Total rows: 2*" :=
  ⟨rfl, by decide, by decide⟩

/-- C4 counterexample input: a uniformly numeric column totalling zero. -/
def c4ZeroRecords : List Record := [[("a", .int 0)], [("a", .int 0)]]

/-- C4 is false as stated: both records' column `a` is numeric, yet no
`Total a` summary line is produced, because the code only totals a column
whose sum is strictly positive (tools.py line 175). -/
theorem C4_counterexample :
    (c4ZeroRecords.all fun r => isNumericPy (recGet r "a")) = true
    ∧ c4ZeroRecords.length = 2
    ∧ ((formatTableLines c4ZeroRecords ["a"]).all fun line =>
        !containsSub "Total a".data line.data) = true
    ∧ _format_results_as_table c4ZeroRecords =
        "| a |\n|:-:|\n| 0 |\n| 0 |\n\n*Total rows: 2*" :=
  ⟨by decide, by decide, by decide, by decide⟩

/-- C4 (amended): in every multi-record result, every column of the first
record whose values are uniformly numeric across all records and whose sum
is positive gets a summed `Total <column>` line after the table, and a
trailing row-count line is appended; the formatter's output is the newline
join of those lines. -/
theorem C4_numeric_totals_and_row_count (rs : List Record) (r0 : Record)
    (key : String)
    (hlen : 2 ≤ rs.length)
    (hhead : rs.head? = some r0)
    (hkey : key ∈ r0.map Prod.fst)
    (hnum : ∀ r ∈ rs, isNumericPy (recGet r key) = true)
    (hpos : PyFloat.ltF (PyFloat.ofInt 0) (columnTotal rs key) = true) :
    ("- Total " ++ key ++ ": " ++ formattedTotal (columnTotal rs key)) ∈
        formatTableLines rs (r0.map Prod.fst)
    ∧ (formatTableLines rs (r0.map Prod.fst)).getLast? =
        some ("*Total rows: " ++ toString rs.length ++ "*")
    ∧ _format_results_as_table rs =
        String.intercalate "\n" (formatTableLines rs (r0.map Prod.fst)) := by
  have hmemNT : (key, columnTotal rs key) ∈ numericTotals rs (r0.map Prod.fst) := by
    apply List.mem_filterMap.mpr
    exact ⟨key, hkey, by rw [if_pos hpos]⟩
  have hline : ("- Total " ++ key ++ ": " ++ formattedTotal (columnTotal rs key)) ∈
      summaryLines rs (r0.map Prod.fst) := by
    unfold summaryLines
    rw [if_neg (by simp [List.isEmpty_iff, List.ne_nil_of_mem hmemNT])]
    exact List.mem_cons_of_mem _ (List.mem_cons_of_mem _
      (List.mem_map.mpr ⟨(key, columnTotal rs key), hmemNT, rfl⟩))
  refine ⟨?_, ?_, ?_⟩
  · unfold formatTableLines
    exact List.mem_append.mpr (Or.inl (List.mem_append.mpr (Or.inr hline)))
  · unfold formatTableLines
    rw [List.getLast?_append_of_ne_nil _ (by simp)]
    rfl
  · cases rs with
    | nil => simp at hhead
    | cons a tail =>
      have ha : a = r0 := by simpa using hhead
      cases tail with
      | nil => exact absurd hlen (by simp)
      | cons b tb =>
        have hr0ne : r0 ≠ [] := by
          intro h
          rw [h] at hkey
          simp at hkey
        have hr0 : r0.isEmpty = false := by
          cases hre : r0 with
          | nil => exact absurd hre hr0ne
          | cons kv t => rfl
        rw [ha]
        simp only [_format_results_as_table]
        rw [if_neg (by simp [hr0]), if_neg (by simp)]

/-- C4 witness input: the two city/count records. -/
def c4DemoRecords : List Record :=
  [[("city", .str "NYC"), ("count", .int 5)],
   [("city", .str "LA"), ("count", .int 3)]]

/-- C4 witness: the `count` column of the demo records gets its summed
total line, and the row-count line trails. -/
theorem C4_witness :
    ("- Total " ++ "count" ++ ": " ++ formattedTotal (columnTotal c4DemoRecords "count")) ∈
        formatTableLines c4DemoRecords
          (([("city", PyVal.str "NYC"), ("count", PyVal.int 5)] : Record).map Prod.fst)
    ∧ (formatTableLines c4DemoRecords
          (([("city", PyVal.str "NYC"), ("count", PyVal.int 5)] : Record).map Prod.fst)).getLast? =
        some ("*Total rows: " ++ toString c4DemoRecords.length ++ "*")
    ∧ _format_results_as_table c4DemoRecords =
        String.intercalate "\n"
          (formatTableLines c4DemoRecords
            (([("city", PyVal.str "NYC"), ("count", PyVal.int 5)] : Record).map Prod.fst)) :=
  C4_numeric_totals_and_row_count c4DemoRecords
    [("city", PyVal.str "NYC"), ("count", PyVal.int 5)] "count"
    (by decide) rfl (by decide) (by decide) (by decide)

/-! ## JSON serialization

`json.dumps` as the tools call it (`ensure_ascii` default, `indent=2` or
none). Only ASCII data reaches it in this code base; non-BMP characters
(which CPython escapes as surrogate pairs) are not modelled. A temporal
value is not JSON-serializable in CPython — every call site runs
`_make_serializable` first, so those constructors never reach `dumps`; they
are rendered as quoted strings here to keep the function total. -/

/-- A lowercase hexadecimal digit. -/
def hexDigit (n : Nat) : Char :=
  if n < 10 then Char.ofNat (48 + n) else Char.ofNat (87 + n)

/-- JSON escaping of one character. -/
def jsonEscapeChar (c : Char) : List Char :=
  if c == '"' then ['\\', '"']
  else if c == '\\' then ['\\', '\\']
  else if c == '\n' then ['\\', 'n']
  else if c == '\t' then ['\\', 't']
  else if c == '\r' then ['\\', 'r']
  else if c == '\x08' then ['\\', 'b']
  else if c == '\x0c' then ['\\', 'f']
  else if c.toNat < 32 || 127 < c.toNat then
    ['\\', 'u', hexDigit (c.toNat / 4096 % 16), hexDigit (c.toNat / 256 % 16),
     hexDigit (c.toNat / 16 % 16), hexDigit (c.toNat % 16)]
  else [c]

/-- A JSON string literal. -/
def jsonQuote (s : String) : String :=
  "\"" ++ String.mk (s.data.foldr (fun c acc => jsonEscapeChar c ++ acc) []) ++ "\""

/-- The spaces before an item at nesting level `lvl` under indent `w`. -/
def nestSp (w lvl : Nat) : String := String.mk (List.replicate (w * lvl) ' ')

/-- The separator between two items. -/
def itemSep (ind : Option Nat) (lvl : Nat) : String :=
  match ind with
  | Option.none => ", "
  | some w => ",\n" ++ nestSp w lvl

mutual
def dumpsVal : PyVal → Option Nat → Nat → String
  | .none, _, _ => "null"
  | .bool b, _, _ => if b then "true" else "false"
  | .int n, _, _ => toString n
  | .float f, _, _ => pyFloatStr f
  | .str s, _, _ => jsonQuote s
  | .date d, _, _ => jsonQuote (pyDateStr d)
  | .datetime d, _, _ => jsonQuote (pyDateTimeStr d)
  | .neoTemporal s, _, _ => jsonQuote s
  | .list .nil, _, _ => "[]"
  | .list (.cons x xs), Option.none, lvl =>
    "[" ++ dumpsArrItems (.cons x xs) Option.none lvl ++ "]"
  | .list (.cons x xs), some w, lvl =>
    "[\n" ++ nestSp w (lvl + 1) ++ dumpsArrItems (.cons x xs) (some w) (lvl + 1) ++
      "\n" ++ nestSp w lvl ++ "]"
  | .dict .nil, _, _ => lbraceS ++ rbraceS
  | .dict (.cons k v kvs), Option.none, lvl =>
    lbraceS ++ dumpsObjItems (.cons k v kvs) Option.none lvl ++ rbraceS
  | .dict (.cons k v kvs), some w, lvl =>
    lbraceS ++ "\n" ++ nestSp w (lvl + 1) ++
      dumpsObjItems (.cons k v kvs) (some w) (lvl + 1) ++ "\n" ++ nestSp w lvl ++
      rbraceS

def dumpsArrItems : PyArr → Option Nat → Nat → String
  | .nil, _, _ => ""
  | .cons x .nil, ind, lvl => dumpsVal x ind lvl
  | .cons x xs, ind, lvl => dumpsVal x ind lvl ++ itemSep ind lvl ++ dumpsArrItems xs ind lvl

def dumpsObjItems : PyObj → Option Nat → Nat → String
  | .nil, _, _ => ""
  | .cons k v .nil, ind, lvl => jsonQuote k ++ ": " ++ dumpsVal v ind lvl
  | .cons k v kvs, ind, lvl =>
    jsonQuote k ++ ": " ++ dumpsVal v ind lvl ++ itemSep ind lvl ++
      dumpsObjItems kvs ind lvl
end

/-- `json.dumps(v)` (indent `none`) or `json.dumps(v, indent=w)`. -/
def pyDumps (v : PyVal) (ind : Option Nat) : String := dumpsVal v ind 0

/-- An association list as a `PyObj`. -/
def objOfList : List (String × PyVal) → PyObj
  | [] => .nil
  | (k, v) :: rest => .cons k v (objOfList rest)

/-- A list of values as a `PyArr`. -/
def arrOfList : List PyVal → PyArr
  | [] => .nil
  | v :: rest => .cons v (arrOfList rest)

/-- A record as the JSON object it serializes to. -/
def recordToPy (r : Record) : PyVal := .dict (objOfList r)

/-- A record list as the JSON array it serializes to. -/
def recordsToPy (rs : List Record) : PyVal := .list (arrOfList (rs.map recordToPy))

/-- A list of strings as a JSON array. -/
def strListToPy (ls : List String) : PyVal := .list (arrOfList (ls.map PyVal.str))

/-- `_make_serializable` applied to one record (tools.py line 63 applies it
to the whole record list). -/
def serializeRecord (r : Record) : Record :=
  r.map fun kv => (kv.1, _make_serializable kv.2)

/-! ## Query execution

`execute_cypher_query` of tools.py (lines 283-338). `_execute_query`
(lines 39-67) runs the query against the live database and returns its
records JSON-serialized (or a connection-error payload); it is the one
effectful boundary, modelled as an oracle `db : String → DbOutcome`.
`execute_cypher_query` then parses that JSON back; since `loads` after
`dumps` restores the same data, the embedding works on the outcome
directly and re-serializes exactly where the source does. -/

inductive DbOutcome where
  | failure (msg : String)
  | success (records : List Record)

namespace NeoTools

/-- The schema-query fragments `execute_cypher_query` itself tests (line
306) — all lowercase, unlike the validator's list. -/
def schema_attempt_fragments : List (List Char) :=
  ["db.labels".data, "db.relationshiptypes".data, "db.schema".data,
   "db.propertykeys".data, "apoc.meta".data]

/-- The blocked-query payload (lines 311-314). -/
def readOnlyRefusedStr : String :=
  pyDumps (.dict (objOfList
    [("error", .str "Only read-only queries are allowed. Write operations are blocked for safety."),
     ("suggestion", .str "Use MATCH and RETURN statements for querying data.")]))
    Option.none

/-- The schema-query-attempt payload (lines 307-310). -/
def schemaQueryRefusedStr : String :=
  pyDumps (.dict (objOfList
    [("error", .str "Direct schema queries are not allowed. Please describe what data you're looking for instead."),
     ("suggestion", .str "For example: 'Show me all customers' or 'What types of relationships exist between customers and orders?'")]))
    Option.none

/-- `_execute_query`'s error payload (line 67). -/
def connectionFailureStr (msg : String) : String :=
  pyDumps (.dict (objOfList
    [("error", .str ("Database connection failed: " ++ msg ++
      ". Please check your Neo4j connection settings."))]))
    Option.none

/-- The empty-result payload (line 335). -/
def emptyResultStr : String :=
  pyDumps (.dict (objOfList
    [("data", .list .nil), ("message", .str "No results found.")]))
    Option.none

/-- The successful-data payload (lines 329-333). -/
def dataPayloadStr (rs : List Record) : String :=
  pyDumps (.dict (objOfList
    [("data", recordsToPy (rs.map serializeRecord)),
     ("message", .str "Query executed successfully. Data is ready for visualization."),
     ("instructions", .str "Convert this data to a pandas DataFrame using: df = pd.DataFrame(data['data'])")]))
    (some 2)

/-- `execute_cypher_query` (lines 283-338): gate through
`_validate_query_safety`, answer a blocked query with the schema-attempt or
read-only refusal, otherwise execute and wrap the outcome. -/
def execute_cypher_query (db : String → DbOutcome) (cypher_query : String) : String :=
  if _validate_query_safety cypher_query = false then
    if anyContains schema_attempt_fragments (queryLower cypher_query) then
      schemaQueryRefusedStr
    else readOnlyRefusedStr
  else
    match db cypher_query with
    | .failure msg => connectionFailureStr msg
    | .success [] => emptyResultStr
    | .success (r :: rest) => dataPayloadStr (r :: rest)

/-! ## The schema cache

`check_schema_cache` (lines 193-213), `get_neo4j_schema` (lines 215-281)
and `refresh_neo4j_schema` (lines 340-357). The process-wide
`_schema_cache` dict is threaded explicitly: each tool maps the cache state
to its output string and the next cache state. -/

/-- The discovered schema (`schema_info`, lines 260-264). -/
structure SchemaInfo where
  labels : List String
  relationships : List String
  node_properties : List (String × List String)

/-- The `labels`/`relationships`/`node_properties` fields as JSON data. -/
def schemaFields (s : SchemaInfo) : List (String × PyVal) :=
  [("labels", strListToPy s.labels),
   ("relationships", strListToPy s.relationships),
   ("node_properties",
     .dict (objOfList (s.node_properties.map fun kv => (kv.1, strListToPy kv.2))))]

/-- The schema as JSON data. -/
def schemaToPy (s : SchemaInfo) : PyVal := .dict (objOfList (schemaFields s))

/-- The not-cached answer of `check_schema_cache` (lines 210-213). -/
def notCachedOutput : String :=
  pyDumps (.dict (objOfList
    [("cached", .bool false),
     ("message", .str "No schema cached. You need to call get_neo4j_schema first.")]))
    Option.none

/-- The cached answer of `check_schema_cache` (lines 203-207). -/
def cachedOutput (s : SchemaInfo) : String :=
  pyDumps (.dict (objOfList
    [("cached", .bool true),
     ("schema", schemaToPy s),
     ("message", .str "Schema is cached. Use the provided schema directly without calling get_neo4j_schema.")]))
    (some 2)

/-- `check_schema_cache`: a pure read of the cache. -/
def check_schema_cache (cache : Option SchemaInfo) : String × Option SchemaInfo :=
  match cache with
  | some s => (cachedOutput s, some s)
  | Option.none => (notCachedOutput, Option.none)

/-- The connection-test query (line 234). -/
def connQuery : String := "RETURN 1 as test"

/-- The label enumeration query (line 244). -/
def labelsQuery : String := "CALL db.labels() YIELD label RETURN collect(label) as labels"

/-- The relationship-type enumeration query (line 247). -/
def relsQuery : String :=
  "CALL db.relationshipTypes() YIELD relationshipType RETURN collect(relationshipType) as relationships"

/-- The per-label sample query (line 268). -/
def sampleQuery (label : String) : String := "MATCH (n:" ++ label ++ ") RETURN n LIMIT 1"

/-- A JSON array of strings read back as a string list. -/
def arrToStrList : PyArr → Option (List String)
  | .nil => some []
  | .cons (.str s) xs => (arrToStrList xs).map fun l => s :: l
  | .cons _ _ => Option.none

/-- A `PyVal` read back as a string list. -/
def pyToStrList : PyVal → Option (List String)
  | .list xs => arrToStrList xs
  | _ => Option.none

/-- `labels_result[0][key] if labels_result else []` (lines 261-262);
`Option.none` marks the shapes on which the source raises an uncaught
`KeyError`/`TypeError`. -/
def extractCollected (recs : List Record) (key : String) : Option (List String) :=
  match recs with
  | [] => some []
  | r :: _ => (recGet r key).bind pyToStrList

/-- The keys of a JSON object, in order. -/
def objKeys : PyObj → List String
  | .nil => []
  | .cons k _ rest => k :: objKeys rest

/-- One iteration of the property-sampling loop (lines 268-271):
`some (some (lab, keys))` records the label's property names;
`some Option.none` skips the label — the sample query returned an error
dict (the `"error" not in sample_result` test fails) or no record (falsy
list); `Option.none` is the uncaught `KeyError`/`AttributeError` the source
raises on `sample_result[0]["n"].keys()` when the sample query *succeeds*
but its first record has no dict under key `"n"`. -/
def samplePropsStep (db : String → DbOutcome) (lab : String) :
    Option (Option (String × List String)) :=
  match db (sampleQuery lab) with
  | .failure _ => some Option.none
  | .success [] => some Option.none
  | .success (r :: _) =>
    match recGet r "n" with
    | some (.dict kvs) => some (some (lab, objKeys kvs))
    | _ => Option.none

/-- The per-label property discovery loop (lines 267-271), in label order;
`Option.none` propagates an uncaught exception out of the loop (the source
has no try/except around it, so the whole tool call aborts before the
cache write at line 274). -/
def discoverNodeProps (db : String → DbOutcome) (labels : List String) :
    Option (List (String × List String)) :=
  match labels with
  | [] => some []
  | lab :: rest =>
    match samplePropsStep db lab with
    | Option.none => Option.none
    | some Option.none => discoverNodeProps db rest
    | some (some entry) => (discoverNodeProps db rest).map fun l => entry :: l

/-- A sentinel for the paths on which the source raises an uncaught
exception (indexing an error dict or a malformed record); the claims'
hypotheses keep execution away from these paths. -/
def pythonRuntimeErrorStr : String := "unhandled Python exception"

/-- `get_neo4j_schema` (lines 215-281): answer from the cache when
populated, otherwise test the connection, enumerate labels and relationship
types, sample one node per label, cache the result and return it. -/
def get_neo4j_schema (db : String → DbOutcome) (cache : Option SchemaInfo) :
    String × Option SchemaInfo :=
  match cache with
  | some s =>
    (pyDumps (.dict (objOfList (schemaFields s ++
      [("_instruction", .str "Schema retrieved from cache. Now use execute_cypher_query to query the data based on the user's request."),
       ("_cached", .bool true)]))) (some 2), some s)
  | Option.none =>
    match db connQuery with
    | .failure e =>
      (pyDumps (.dict (objOfList
        [("error", .str "Cannot connect to Neo4j database"),
         ("details", .str ("Database connection failed: " ++ e ++
           ". Please check your Neo4j connection settings.")),
         ("suggestion", .str "Please check your Neo4j connection settings and ensure the database is running.")]))
        Option.none, Option.none)
    | .success _ =>
      match db labelsQuery with
      | .failure e =>
        (pyDumps (.dict (objOfList
          [("error", .str "Failed to retrieve database schema"),
           ("details", .str ("Database connection failed: " ++ e ++
             ". Please check your Neo4j connection settings."))]))
          Option.none, Option.none)
      | .success labelRecs =>
        match db relsQuery with
        | .failure _ => (pythonRuntimeErrorStr, Option.none)
        | .success relRecs =>
          match extractCollected labelRecs "labels",
              extractCollected relRecs "relationships" with
          | some ls, some rels =>
            match discoverNodeProps db ls with
            | Option.none => (pythonRuntimeErrorStr, Option.none)
            | some props =>
              let info : SchemaInfo := ⟨ls, rels, props⟩
              (pyDumps (.dict (objOfList (schemaFields info ++
                [("_instruction", .str "Schema retrieved from database. Now use execute_cypher_query to query the data based on the user's request."),
                 ("_cached", .bool false)]))) (some 2), some info)
          | _, _ => (pythonRuntimeErrorStr, Option.none)

/-- `refresh_neo4j_schema` (lines 340-357): clear the cache. -/
def refresh_neo4j_schema (cache : Option SchemaInfo) : String × Option SchemaInfo :=
  match cache with
  | some _ =>
    (pyDumps (.dict (objOfList
      [("status", .str "success"),
       ("message", .str "Schema cache has been cleared. Next schema request will fetch fresh data from Neo4j.")]))
      Option.none, Option.none)
  | Option.none =>
    (pyDumps (.dict (objOfList
      [("status", .str "info"), ("message", .str "No cached schema found.")]))
      Option.none, Option.none)

end NeoTools

theorem arrToStrList_of_strs :
    ∀ ls : List String, NeoTools.arrToStrList (arrOfList (ls.map PyVal.str)) = some ls
  | [] => rfl
  | s :: rest => by
    simp only [List.map_cons, arrOfList, NeoTools.arrToStrList,
      arrToStrList_of_strs rest]
    rfl

/-- The complementary error path of the discovery loop: when the
property-sampling loop hits the source's uncaught exception (a sample
query succeeding with no dict under `"n"`), the tool call aborts and the
cache stays unwritten. -/
theorem get_neo4j_schema_no_cache_on_sample_crash (db : String → DbOutcome)
    (ls rels : List String) (ctr : List Record)
    (hconn : db NeoTools.connQuery = .success ctr)
    (hlabels : db NeoTools.labelsQuery = .success [[("labels", strListToPy ls)]])
    (hrels : db NeoTools.relsQuery = .success [[("relationships", strListToPy rels)]])
    (hcrash : NeoTools.discoverNodeProps db ls = Option.none) :
    NeoTools.get_neo4j_schema db Option.none =
      (NeoTools.pythonRuntimeErrorStr, Option.none) := by
  unfold NeoTools.get_neo4j_schema
  rw [hconn, hlabels, hrels]
  simp only [NeoTools.extractCollected, recGet, List.find?, beq_self_eq_true,
    NeoTools.pyToStrList, strListToPy, Option.some_bind, Option.bind_some,
    arrToStrList_of_strs]
  rw [hcrash]

/-- C6: on a fresh cache `check_schema_cache` answers not-cached; a
successful `get_neo4j_schema` — one whose discovery queries are well-shaped
and whose property-sampling loop completes without the source's uncaught
exception, yielding `props` — populates the cache with the discovered
labels, relationships and sampled properties; `check_schema_cache` then
answers cached together with exactly that schema; `refresh_neo4j_schema`
clears the cache, after which `check_schema_cache` answers not-cached
again; and `check_schema_cache` never modifies the cache. -/
theorem C6_schema_cache_lifecycle (db : String → DbOutcome) (ls rels : List String)
    (ctr : List Record) (props : List (String × List String))
    (hconn : db NeoTools.connQuery = .success ctr)
    (hlabels : db NeoTools.labelsQuery = .success [[("labels", strListToPy ls)]])
    (hrels : db NeoTools.relsQuery = .success [[("relationships", strListToPy rels)]])
    (hprops : NeoTools.discoverNodeProps db ls = some props) :
    NeoTools.check_schema_cache Option.none = (NeoTools.notCachedOutput, Option.none)
    ∧ (NeoTools.get_neo4j_schema db Option.none).2 = some ⟨ls, rels, props⟩
    ∧ NeoTools.check_schema_cache (NeoTools.get_neo4j_schema db Option.none).2 =
        (NeoTools.cachedOutput ⟨ls, rels, props⟩, some ⟨ls, rels, props⟩)
    ∧ (NeoTools.refresh_neo4j_schema (NeoTools.get_neo4j_schema db Option.none).2).2 =
        Option.none
    ∧ NeoTools.check_schema_cache
        (NeoTools.refresh_neo4j_schema (NeoTools.get_neo4j_schema db Option.none).2).2 =
        (NeoTools.notCachedOutput, Option.none)
    ∧ (∀ st, (NeoTools.check_schema_cache st).2 = st) := by
  have hget : (NeoTools.get_neo4j_schema db Option.none).2 = some ⟨ls, rels, props⟩ := by
    unfold NeoTools.get_neo4j_schema
    rw [hconn, hlabels, hrels]
    simp only [NeoTools.extractCollected, recGet, List.find?, beq_self_eq_true,
      NeoTools.pyToStrList, strListToPy, Option.some_bind, Option.bind_some,
      arrToStrList_of_strs]
    rw [hprops]
  refine ⟨rfl, hget, ?_, ?_, ?_, ?_⟩
  · rw [hget]; rfl
  · rw [hget]; rfl
  · rw [hget]; rfl
  · intro st
    cases st with
    | none => rfl
    | some s => rfl

/-- C6 witness database: well-shaped answers to the three discovery
queries. -/
def demoDb : String → DbOutcome := fun q =>
  if q == NeoTools.labelsQuery then .success [[("labels", strListToPy ["Customer"])]]
  else if q == NeoTools.relsQuery then .success [[("relationships", strListToPy ["OWNS"])]]
  else if q == NeoTools.connQuery then .success [[("test", PyVal.int 1)]]
  else .failure "no database"

/-- C6 witness: the lifecycle on the demo database (whose sample query for
`Customer` answers with a database failure, so the loop skips the label and
completes with no recorded properties). -/
theorem C6_witness :
    NeoTools.check_schema_cache Option.none = (NeoTools.notCachedOutput, Option.none)
    ∧ (NeoTools.get_neo4j_schema demoDb Option.none).2 =
        some ⟨["Customer"], ["OWNS"], []⟩
    ∧ NeoTools.check_schema_cache (NeoTools.get_neo4j_schema demoDb Option.none).2 =
        (NeoTools.cachedOutput ⟨["Customer"], ["OWNS"], []⟩,
         some ⟨["Customer"], ["OWNS"], []⟩)
    ∧ (NeoTools.refresh_neo4j_schema (NeoTools.get_neo4j_schema demoDb Option.none).2).2 =
        Option.none
    ∧ NeoTools.check_schema_cache
        (NeoTools.refresh_neo4j_schema (NeoTools.get_neo4j_schema demoDb Option.none).2).2 =
        (NeoTools.notCachedOutput, Option.none)
    ∧ (∀ st, (NeoTools.check_schema_cache st).2 = st) :=
  C6_schema_cache_lifecycle demoDb ["Customer"] ["OWNS"] [[("test", PyVal.int 1)]] []
    rfl rfl rfl rfl

/-! ## Community detection

`detect_communities` of tools.py (lines 584-692). The two query templates
are transcribed verbatim (the `f"""…"""` literals, with `{node_pattern}`
and `{min_community_size}` as the holes). The embedding returns, next to
the output string, the list of queries it routed through
`execute_cypher_query`, in order — the observable needed to state when the
fallback ran. -/

/-- The triangle query before the `{node_pattern}` hole. -/
def ctqPart1 : String :=
  "\n    // Find nodes that form triangles (basic community structure)\n    MATCH "

/-- The triangle query between `{node_pattern}` and
`{min_community_size}`; it contains the comment line
`// Create community groups`. -/
def ctqPart2 : String :=
  "-[r1]-(m)-[r2]-(o)-[r3]-(n)\n    WHERE id(n) < id(m) AND id(m) < id(o)\n    WITH n, m, o, count(*) as triangle_count\n    \n    // Group nodes that share triangles\n    WITH collect(DISTINCT n) + collect(DISTINCT m) + collect(DISTINCT o) as community_nodes\n    UNWIND community_nodes as node\n    WITH DISTINCT node\n    \n    // Find all nodes connected to our triangle nodes\n    MATCH (node)-[*1..2]-(connected)\n    WITH node, collect(DISTINCT connected) as extended_community\n    \n    // Create community groups\n    WITH collect(\x7banchor: node, members: extended_community\x7d) as communities\n    UNWIND communities as community\n    WITH community.anchor as anchor, \n         [n in community.members | n] as members\n    WHERE size(members) >= "

/-- The triangle query after `{min_community_size}`. -/
def ctqPart3 : String :=
  "\n    \n    // Analyze each community\n    WITH anchor, members, size(members) as community_size\n    ORDER BY community_size DESC\n    LIMIT 10\n    \n    // Get community details\n    UNWIND members as member\n    WITH anchor, community_size,\n         collect(DISTINCT labels(member)[0]) as node_types,\n         count(DISTINCT member) as actual_size,\n         collect(DISTINCT coalesce(member.name, member.id, toString(id(member))))[..5] as sample_members\n    \n    RETURN labels(anchor)[0] + ':' + coalesce(anchor.name, anchor.id, toString(id(anchor))) as community_anchor,\n           actual_size as community_size,\n           node_types,\n           sample_members + CASE WHEN actual_size > 5 THEN ['...'] ELSE [] END as members_sample\n    "

/-- The triangle-based community query (lines 605-643). -/
def communityTriangleQuery (node_pattern : String) (min_community_size : Int) : String :=
  ctqPart1 ++ node_pattern ++ ctqPart2 ++ toString min_community_size ++ ctqPart3

/-- The fallback query before the `{node_pattern}` hole. -/
def cfqPart1 : String := "\n        MATCH "

/-- The fallback query between `{node_pattern}` and
`{min_community_size}`. -/
def cfqPart2 : String :=
  "\n        WITH n, size((n)--()) as degree\n        WHERE degree >= 3\n        ORDER BY degree DESC\n        LIMIT 20\n        \n        // For each highly connected node, find its neighborhood\n        MATCH (n)-[]-(neighbor)\n        WITH n, collect(DISTINCT neighbor) as neighbors, degree\n        WHERE size(neighbors) >= "

/-- The fallback query after `{min_community_size}`; it contains the
density threshold `WHERE density > 0.3`. -/
def cfqPart3 : String :=
  "\n        \n        // Check connectivity within neighborhood\n        UNWIND neighbors as n1\n        UNWIND neighbors as n2\n        WHERE id(n1) < id(n2)\n        MATCH (n1)-[]-(n2)\n        WITH n, neighbors, degree, count(*) as internal_connections\n        \n        // Calculate density\n        WITH n, neighbors, degree, internal_connections,\n             2.0 * internal_connections / (size(neighbors) * (size(neighbors) - 1)) as density\n        WHERE density > 0.3  // At least 30% connected\n        \n        RETURN labels(n)[0] + ':' + coalesce(n.name, n.id, toString(id(n))) as community_center,\n               size(neighbors) as community_size,\n               round(density, 2) as connectivity_density,\n               [neighbor in neighbors | coalesce(neighbor.name, neighbor.id, toString(id(neighbor)))][..5] as members_sample\n        ORDER BY community_size DESC\n        LIMIT 10\n        "

/-- The density-threshold fallback query (lines 651-681). -/
def communityFallbackQuery (node_pattern : String) (min_community_size : Int) : String :=
  cfqPart1 ++ node_pattern ++ cfqPart2 ++ toString min_community_size ++ cfqPart3

/-- `f"(n:{node_label})" if node_label and node_label.strip() else "(n)"`
(line 601). -/
def nodePatternOf (node_label : String) : String :=
  if !node_label.data.isEmpty && !(pyStrip node_label.data).isEmpty then
    "(n:" ++ node_label ++ ")"
  else "(n)"

/-- `detect_communities` (lines 584-692), instrumented with the list of
queries it hands to `execute_cypher_query`: run the triangle query; when
its result contains `No results found`, retry with the fallback query and
wrap a successful fallback result; wrap a successful triangle result;
otherwise return the result unchanged. -/
def detect_communities (db : String → DbOutcome) (node_label : String)
    (min_community_size : Int) : String × List String :=
  let node_pattern := nodePatternOf node_label
  let query := communityTriangleQuery node_pattern min_community_size
  let result := NeoTools.execute_cypher_query db query
  if containsSub "No results found".data result.data then
    let simpler_query := communityFallbackQuery node_pattern min_community_size
    let result2 := NeoTools.execute_cypher_query db simpler_query
    if containsSub "Query Results:".data result2.data then
      ("**Community Detection Results**\n*Communities identified by highly connected central nodes*\n\n"
        ++ result2 ++
        "\n\n*Density indicates how connected members are within the community (0-1)*",
       [query, simpler_query])
    else if containsSub "Query Results:".data result2.data then
      ("**Community Detection Results**\n*Communities identified by triangle patterns*\n\n"
        ++ result2 ++
        "\n\n*Larger communities with diverse node types may indicate important graph structures*",
       [query, simpler_query])
    else (result2, [query, simpler_query])
  else if containsSub "Query Results:".data result.data then
    ("**Community Detection Results**\n*Communities identified by triangle patterns*\n\n"
      ++ result ++
      "\n\n*Larger communities with diverse node types may indicate important graph structures*",
     [query])
  else (result, [query])

theorem create_in_ctqPart2 : containsSub "CREATE".data (pyUpper ctqPart2.data) = true := by
  decide

/-- The triangle query always trips the validator's CREATE substring test:
its fixed text contains the comment `// Create community groups`, whatever
the node pattern and minimum size are. -/
theorem triangle_query_rejected (np : String) (m : Int) :
    NeoTools._validate_query_safety (communityTriangleQuery np m) = false := by
  have hdata : (communityTriangleQuery np m).data =
      (((ctqPart1.data ++ np.data) ++ ctqPart2.data) ++ (toString m).data) ++
        ctqPart3.data := rfl
  have hsub : containsSub "CREATE".data (pyUpper (communityTriangleQuery np m).data) = true := by
    rw [hdata]
    unfold pyUpper
    rw [List.map_append, List.map_append, List.map_append, List.map_append]
    apply containsSub_append_left
    apply containsSub_append_left
    apply containsSub_append_right
    exact create_in_ctqPart2
  have hlen : 0 < (communityTriangleQuery np m).data.length := by
    rw [hdata]
    simp only [List.length_append]
    have h1 : 0 < ctqPart1.data.length := by decide
    omega
  have hne : (communityTriangleQuery np m).data.isEmpty = false := by
    cases h : (communityTriangleQuery np m).data with
    | nil => rw [h] at hlen; simp at hlen
    | cons a t => rfl
  have hany := anyContains_write_of_kw (communityTriangleQuery np m) "CREATE".data
    (by decide) hsub
  unfold NeoTools._validate_query_safety
  rw [if_neg (by simp [hne]), if_pos hany]

theorem density_in_cfqPart3 :
    containsSub "WHERE density > 0.3".data cfqPart3.data = true := by decide

/-- C3: `detect_communities` first routes the triangle-based community
query through `execute_cypher_query` (which gates it through the same
`_validate_query_safety` as direct queries — indeed the gate rejects it,
its text containing a CREATE comment); it retries with the
density-threshold (`WHERE density > 0.3`) fallback query exactly when the
first result contains `No results found`; the refusal the gate produces
never contains that marker, so the executed-query list is exactly the
triangle query. -/
theorem C3_detect_communities_two_tier (db : String → DbOutcome)
    (node_label : String) (min_community_size : Int) :
    ((detect_communities db node_label min_community_size).2.head? =
        some (communityTriangleQuery (nodePatternOf node_label) min_community_size))
    ∧ ((detect_communities db node_label min_community_size).2 =
        [communityTriangleQuery (nodePatternOf node_label) min_community_size,
         communityFallbackQuery (nodePatternOf node_label) min_community_size] ↔
       containsSub "No results found".data
         (NeoTools.execute_cypher_query db
           (communityTriangleQuery (nodePatternOf node_label) min_community_size)).data
         = true)
    ∧ containsSub "WHERE density > 0.3".data
        (communityFallbackQuery (nodePatternOf node_label) min_community_size).data = true
    ∧ NeoTools._validate_query_safety
        (communityTriangleQuery (nodePatternOf node_label) min_community_size) = false
    ∧ NeoTools.execute_cypher_query db
        (communityTriangleQuery (nodePatternOf node_label) min_community_size) =
      (if anyContains NeoTools.schema_attempt_fragments
          (queryLower (communityTriangleQuery (nodePatternOf node_label) min_community_size))
       then NeoTools.schemaQueryRefusedStr else NeoTools.readOnlyRefusedStr)
    ∧ (detect_communities db node_label min_community_size).2 =
        [communityTriangleQuery (nodePatternOf node_label) min_community_size] := by
  have hval := triangle_query_rejected (nodePatternOf node_label) min_community_size
  have hr1 : NeoTools.execute_cypher_query db
      (communityTriangleQuery (nodePatternOf node_label) min_community_size) =
      (if anyContains NeoTools.schema_attempt_fragments
          (queryLower (communityTriangleQuery (nodePatternOf node_label) min_community_size))
       then NeoTools.schemaQueryRefusedStr else NeoTools.readOnlyRefusedStr) := by
    unfold NeoTools.execute_cypher_query
    rw [if_pos hval]
  have hnores : containsSub "No results found".data
      (NeoTools.execute_cypher_query db
        (communityTriangleQuery (nodePatternOf node_label) min_community_size)).data
      = false := by
    rw [hr1]
    by_cases h : anyContains NeoTools.schema_attempt_fragments
        (queryLower (communityTriangleQuery (nodePatternOf node_label) min_community_size)) = true
    · rw [if_pos h]; decide
    · rw [if_neg h]; decide
  have htrace : (detect_communities db node_label min_community_size).2 =
      [communityTriangleQuery (nodePatternOf node_label) min_community_size] := by
    unfold detect_communities
    rw [if_neg (by simp [hnores])]
    by_cases hqr : containsSub "Query Results:".data
        (NeoTools.execute_cypher_query db
          (communityTriangleQuery (nodePatternOf node_label) min_community_size)).data = true
    · rw [if_pos hqr]
    · rw [if_neg hqr]
  have hdensity : containsSub "WHERE density > 0.3".data
      (communityFallbackQuery (nodePatternOf node_label) min_community_size).data = true := by
    have hdata : (communityFallbackQuery (nodePatternOf node_label) min_community_size).data =
        (((cfqPart1.data ++ (nodePatternOf node_label).data) ++ cfqPart2.data) ++
          (toString min_community_size).data) ++ cfqPart3.data := rfl
    rw [hdata]
    exact containsSub_append_right _ _ _ density_in_cfqPart3
  refine ⟨by rw [htrace]; rfl, ?_, hdensity, hval, hr1, htrace⟩
  rw [htrace, hnores]
  constructor
  · intro h
    exact absurd (congrArg List.length h) (by simp)
  · intro h
    exact absurd h (by simp)

/-! ## The ASCII bar chart

`create_bar_chart` of `src/neo4j_database_agent/simple_charts.py` (lines
9-117). -/

namespace SimpleCharts

/-- `value_priorities` (line 32). -/
def value_priorities : List String := ["count", "total", "amount", "sum", "value", "number"]

/-- `label_priorities` (line 58). -/
def label_priorities : List String := ["year", "name", "label", "category", "type"]

/-- `all(isinstance(row.get(k), (int, float)) for row in data)`. -/
def allNumericCol (data : List Record) (k : String) : Bool :=
  data.all fun row => isNumericPy (recGet row k)

/-- The value-column selection (lines 34-55): first priority name that is a
key with a uniformly numeric column, else the first uniformly numeric
key. -/
def selectValueKey (data : List Record) (keys : List String) : Option String :=
  match value_priorities.find? (fun p => keys.contains p && allNumericCol data p) with
  | some p => some p
  | Option.none => keys.find? fun k => allNumericCol data k

/-- The label-column selection (lines 57-70): first priority name that is a
key and differs from the value key, else the first other key (the records
themselves are not consulted). -/
def selectLabelKey (_data : List Record) (keys : List String) (vk : Option String) :
    Option String :=
  match label_priorities.find? (fun p => keys.contains p && vk != some p) with
  | some p => some p
  | Option.none => keys.find? fun k => vk != some k

/-- Python `str.isdigit` (ASCII digits). -/
def isDigitsStr (s : String) : Bool := !s.data.isEmpty && s.data.all Char.isDigit

/-- `int(s)` for a digit string. -/
def natOfDigits (s : String) : Nat :=
  s.data.foldl (fun a c => 10 * a + (c.toNat - 48)) 0

/-- Stable insertion into a sorted list (equal keys keep their order). -/
def insertSorted (le : String × PyFloat → String × PyFloat → Bool)
    (x : String × PyFloat) : List (String × PyFloat) → List (String × PyFloat)
  | [] => [x]
  | y :: ys => if le y x then y :: insertSorted le x ys else x :: y :: ys

/-- A stable ascending sort (Python `list.sort` is stable). -/
def stableSortBy (le : String × PyFloat → String × PyFloat → Bool)
    (l : List (String × PyFloat)) : List (String × PyFloat) :=
  l.foldl (fun acc x => insertSorted le x acc) []

/-- Code-point comparison of strings (Python `str` ordering). -/
def charListLe : List Char → List Char → Bool
  | [], _ => true
  | _ :: _, [] => false
  | a :: as2, b :: bs => if a == b then charListLe as2 bs else decide (a < b)

/-- `chart_data` (lines 76-82): label via `str(row.get(label_key,
'Unknown'))`, value via `float(row.get(value_key, 0))` (the selection
guarantees the value column is numeric in every row). -/
def chartData (data : List Record) (lk vk : String) : List (String × PyFloat) :=
  data.map fun row =>
    ((match recGet row lk with
      | some v => pyStr v
      | Option.none => "Unknown"),
     toFloatPy ((recGet row vk).getD (PyVal.int 0)))

/-- `max_value` (lines 77-81). -/
def maxValue (cd : List (String × PyFloat)) : PyFloat :=
  cd.foldl (fun m lv => PyFloat.maxF m lv.2) (PyFloat.ofInt 0)

/-- The label sort (lines 85-88): all-digit labels sort numerically, no
digit labels sort as strings; a mixed list raises a `TypeError` inside
`list.sort`, swallowed by the bare `except` — modelled as leaving the list
unchanged. -/
def sortChartData (cd : List (String × PyFloat)) : List (String × PyFloat) :=
  if cd.all fun lv => isDigitsStr lv.1 then
    stableSortBy (fun a b => natOfDigits a.1 ≤ natOfDigits b.1) cd
  else if cd.all fun lv => !isDigitsStr lv.1 then
    stableSortBy (fun a b => charListLe a.1.data b.1.data) cd
  else cd

/-- `f"{value:,.0f}" if value == int(value) else f"{value:.1f}"`
(line 104). -/
def fmtChartValue (v : PyFloat) : String :=
  if v.isIntegral then commaGroupInt (Int.tdiv v.num v.den)
  else
    let n := roundHalfEvenScaled v 10
    (if n < 0 then "-" else "") ++ toString (n.natAbs / 10) ++ "." ++
      toString (n.natAbs % 10)

/-- One chart row (lines 94-109): a proportional bar of up to 40 blocks,
space-padded to 40, after the label truncated past 15 characters and
left-justified to 15. -/
def chartLine (maxV : PyFloat) (lv : String × PyFloat) : String :=
  let bar_length : Int :=
    if PyFloat.ltF (PyFloat.ofInt 0) maxV then ((lv.2.div maxV).mulInt 40).trunc else 0
  let bar := String.mk (List.replicate bar_length.toNat '█')
  let spaces := String.mk (List.replicate ((40 - bar_length).toNat) ' ')
  let display_label :=
    if 15 < lv.1.length then String.mk (lv.1.data.take 12) ++ "..." else lv.1
  padTo display_label 15 ++ " : " ++ bar ++ spaces ++ " " ++ fmtChartValue lv.2

/-- `total = sum(v for _, v in chart_data)` (line 112). -/
def chartTotal (cd : List (String × PyFloat)) : PyFloat :=
  cd.foldl (fun acc lv => acc.add lv.2) (PyFloat.ofInt 0)

/-- `create_bar_chart` (lines 9-117); `title` defaults to
`"Data Visualization"` at the call sites the claims exercise. -/
def create_bar_chart (data : List Record) (title : String) : String :=
  match data with
  | [] => "No data to visualize"
  | first_row :: _ =>
    let keys := first_row.map Prod.fst
    let vkO := selectValueKey data keys
    let lkO := selectLabelKey data keys vkO
    if (match vkO with
        | Option.none => true
        | some s => s.isEmpty) ||
       (match lkO with
        | Option.none => true
        | some s => s.isEmpty) then
      "Cannot create chart - need label and numeric columns"
    else
      let vk := vkO.getD ""
      let lk := lkO.getD ""
      let cd := sortChartData (chartData data lk vk)
      let maxV := maxValue (chartData data lk vk)
      String.intercalate "\n"
        (([title, String.mk (List.replicate title.length '='), ""]
          ++ cd.map (chartLine maxV))
          ++ ["", padTo "Total" 15 ++ " : " ++ fmtChartValue (chartTotal cd)])

end SimpleCharts

/-- C9's input records. -/
def c9Data : List Record :=
  [[("year", .str "2022"), ("count", .int 10)],
   [("year", .str "2023"), ("count", .int 20)]]

/-- C9: on the year/count records the chart selects `count` as the value
column and `year` as the label column and renders two proportional bars —
40 blocks for 2023, exactly twice the 20 blocks for 2022 — with a trailing
total line of 30. -/
theorem C9_chart_proportional_bars :
    SimpleCharts.selectValueKey c9Data ["year", "count"] = some "count"
    ∧ SimpleCharts.selectLabelKey c9Data ["year", "count"] (some "count") = some "year"
    ∧ SimpleCharts.create_bar_chart c9Data "Data Visualization" =
        String.intercalate "\n"
          ["Data Visualization",
           String.mk (List.replicate 18 '='),
           "",
           "2022           " ++ " : " ++ String.mk (List.replicate 20 '█') ++
             String.mk (List.replicate 20 ' ') ++ " 10",
           "2023           " ++ " : " ++ String.mk (List.replicate 40 '█') ++
             String.mk (List.replicate 0 ' ') ++ " 20",
           "",
           "Total          " ++ " : " ++ "30"] :=
  ⟨by decide, by decide, by decide⟩

/-! ## A small regular-expression engine

`src/agents/security.py` matches its intent patterns with `re.search`. The
engine below supports exactly the constructs those patterns use: literals,
character classes, concatenation, alternation, `*` (hence `+` and `?`) and
the zero-width word boundary `\b`. Matching is a backtracking enumeration
of the states `(last consumed character, remaining input)`; the star rule
only iterates on states that consumed input, so a fuel of the input length
is exact (a repetition can run at most once per remaining character, and
the empty iteration is offered at every fuel, including zero). -/

inductive RE where
  | eps : RE
  | lit (c : Char) : RE
  | cls (p : Char → Bool) : RE
  | seq (a b : RE) : RE
  | alt (a b : RE) : RE
  | star (a : RE) : RE
  | wb : RE

/-- Python `\w` (ASCII part). -/
def isWordChar (c : Char) : Bool := c.isAlphanum || c == '_'

/-- Python `\s` (ASCII part). -/
def isSpaceRe (c : Char) : Bool :=
  c == ' ' || c == '\t' || c == '\n' || c == '\r' || c == '\x0b' || c == '\x0c'

/-- A word boundary between the previous and the next character. -/
def wordBoundary (prev next : Option Char) : Bool :=
  (match prev with | some c => isWordChar c | Option.none => false) !=
  (match next with | some c => isWordChar c | Option.none => false)

/-- The node count of a pattern. -/
def reSize : RE → Nat
  | .eps => 1
  | .lit _ => 1
  | .cls _ => 1
  | .wb => 1
  | .seq a b => 1 + reSize a + reSize b
  | .alt a b => 1 + reSize a + reSize b
  | .star a => 1 + reSize a

/-- All states reachable by matching `r` from `(prev, l)`, fuel-indexed
(structural recursion on the fuel, so the kernel can evaluate it). Every
recursive call decrements the fuel by one. Along any call chain the fuel is
spent either descending into a strict subpattern — at most `reSize r`
consecutive steps — or re-entering a `star`, which the `filter` allows only
after consuming at least one character, so at most `l.length` times per
star context; `reSearch` therefore supplies `(reSize r + 1) * (l.length + 2)`,
past which the zero-fuel cutoff (which returns no state) is unreachable. -/
def runF : Nat → RE → Option Char → List Char → List (Option Char × List Char)
  | 0, _, _, _ => []
  | fuel + 1, r, prev, l =>
    match r with
    | .eps => [(prev, l)]
    | .lit c =>
      match l with
      | [] => []
      | c2 :: rest => if c2 == c then [(some c2, rest)] else []
    | .cls p =>
      match l with
      | [] => []
      | c2 :: rest => if p c2 then [(some c2, rest)] else []
    | .wb => if wordBoundary prev l.head? then [(prev, l)] else []
    | .seq a b => (runF fuel a prev l).flatMap fun st => runF fuel b st.1 st.2
    | .alt a b => runF fuel a prev l ++ runF fuel b prev l
    | .star a =>
      (prev, l) ::
        ((runF fuel a prev l).filter fun st => st.2.length < l.length).flatMap
          fun st => runF fuel (.star a) st.1 st.2

/-- Every start position of a search, with its preceding character. -/
def startStates (prev : Option Char) (l : List Char) :
    List (Option Char × List Char) :=
  match l with
  | [] => [(prev, [])]
  | c :: rest => (prev, c :: rest) :: startStates (some c) rest

/-- `bool(re.search(r, s))`. -/
def reSearch (r : RE) (l : List Char) : Bool :=
  (startStates Option.none l).any fun st =>
    !(runF ((reSize r + 1) * (st.2.length + 2)) r st.1 st.2).isEmpty

/-- A literal word. -/
def reStr (s : String) : RE :=
  s.data.foldr (fun c acc => RE.seq (RE.lit c) acc) RE.eps

/-- Concatenation of a pattern list. -/
def reCat (rs : List RE) : RE := rs.foldr RE.seq RE.eps

/-- Alternation `(x|y|…)`. -/
def reAny : List RE → RE
  | [] => RE.cls fun _ => false
  | r :: rest => rest.foldl RE.alt r

/-- `r+`. -/
def rePlus (r : RE) : RE := RE.seq r (RE.star r)

/-- `r?`. -/
def reOpt (r : RE) : RE := RE.alt r RE.eps

/-- `\s+`. -/
def wsPlus : RE := rePlus (RE.cls isSpaceRe)

/-- `\w+`. -/
def wordPlus : RE := rePlus (RE.cls isWordChar)

/-- `.*` (a dot matches anything but a newline). -/
def dotStar : RE := RE.star (RE.cls fun c => !(c == '\n'))

/-! ## The intent classifier

`src/agents/security.py`: `is_destructive_intent` (lines 12-55),
`_is_safe_context` (lines 57-95) and `get_reformulation_suggestion` (lines
97-116). Each Python regex is transliterated into the engine above. -/

namespace AgentsSecurity

/-- `destructive_patterns` (security.py lines 29-40), in order:
`\bcreate\s+(new\s+)?(user|customer|product|order|record|node|database|table)`,
`\badd\s+(new\s+)?(user|customer|product|order|record|entry)`,
`\binsert\s+(into\s+)?\w+`,
`\bupdate\s+(the\s+)?(user|customer|product|order|record|database|table)`,
`\bmodify\s+(the\s+)?(user|customer|product|order|record|database|table)`,
`\bdelete\s+(\w+\s+)*(user|customer|product|order|record|data|from)`,
`\bremove\s+(\w+\s+)*(user|customer|product|order|record|data|from)`,
`\bdrop\s+(table|database|index|constraint|user)`,
`\bset\s+\w+\s*=`,
`\bmerge\s+(into\s+)?\w+`. -/
def destructive_patterns : List RE :=
  [reCat [RE.wb, reStr "create", wsPlus, reOpt (reCat [reStr "new", wsPlus]),
     reAny (["user", "customer", "product", "order", "record", "node",
       "database", "table"].map reStr)],
   reCat [RE.wb, reStr "add", wsPlus, reOpt (reCat [reStr "new", wsPlus]),
     reAny (["user", "customer", "product", "order", "record", "entry"].map reStr)],
   reCat [RE.wb, reStr "insert", wsPlus, reOpt (reCat [reStr "into", wsPlus]),
     wordPlus],
   reCat [RE.wb, reStr "update", wsPlus, reOpt (reCat [reStr "the", wsPlus]),
     reAny (["user", "customer", "product", "order", "record", "database",
       "table"].map reStr)],
   reCat [RE.wb, reStr "modify", wsPlus, reOpt (reCat [reStr "the", wsPlus]),
     reAny (["user", "customer", "product", "order", "record", "database",
       "table"].map reStr)],
   reCat [RE.wb, reStr "delete", wsPlus, RE.star (reCat [wordPlus, wsPlus]),
     reAny (["user", "customer", "product", "order", "record", "data",
       "from"].map reStr)],
   reCat [RE.wb, reStr "remove", wsPlus, RE.star (reCat [wordPlus, wsPlus]),
     reAny (["user", "customer", "product", "order", "record", "data",
       "from"].map reStr)],
   reCat [RE.wb, reStr "drop", wsPlus,
     reAny (["table", "database", "index", "constraint", "user"].map reStr)],
   reCat [RE.wb, reStr "set", wsPlus, wordPlus, RE.star (RE.cls isSpaceRe),
     RE.lit '='],
   reCat [RE.wb, reStr "merge", wsPlus, reOpt (reCat [reStr "into", wsPlus]),
     wordPlus]]

/-- `safe_query_patterns` (lines 78-87), in order:
`\b(list|show|find|get|fetch|display|retrieve)\b`, `\border\s+by\b`,
`\bgroup\s+by\b`, `\bcount\b.*\bby\b`, `\bsum\b.*\bby\b`,
`\btotal\b.*\bby\b`, `\ball\s+\w+\s+order\b`,
`\bsubscription\b.*\border\b`. -/
def safe_query_patterns : List RE :=
  [reCat [RE.wb,
     reAny (["list", "show", "find", "get", "fetch", "display",
       "retrieve"].map reStr), RE.wb],
   reCat [RE.wb, reStr "order", wsPlus, reStr "by", RE.wb],
   reCat [RE.wb, reStr "group", wsPlus, reStr "by", RE.wb],
   reCat [RE.wb, reStr "count", RE.wb, dotStar, RE.wb, reStr "by", RE.wb],
   reCat [RE.wb, reStr "sum", RE.wb, dotStar, RE.wb, reStr "by", RE.wb],
   reCat [RE.wb, reStr "total", RE.wb, dotStar, RE.wb, reStr "by", RE.wb],
   reCat [RE.wb, reStr "all", wsPlus, wordPlus, wsPlus, reStr "order", RE.wb],
   reCat [RE.wb, reStr "subscription", RE.wb, dotStar, RE.wb, reStr "order", RE.wb]]

/-- `safe_indicators` (lines 71-75). -/
def safe_indicators : List String :=
  ["how to", "how do i", "can you show", "what is", "tell me about",
   "explain", "describe", "example of", "information about",
   "update me", "keep me updated", "status update"]

/-- `destructive_keywords` (lines 50-53). -/
def destructive_keywords : List String :=
  ["insert into", "create node", "delete from", "remove node",
   "modify data", "change database", "update database", "alter table"]

/-- `_is_safe_context` (lines 57-95): the matched pattern is received but
not consulted — only the message is re-examined. -/
def _is_safe_context (message : String) (_matched_pattern : RE) : Bool :=
  let message_lower := pyLower message.data
  if safe_query_patterns.any fun p => reSearch p message_lower then true
  else safe_indicators.any fun ind => containsSub ind.data message_lower

/-- `is_destructive_intent` (lines 12-55): destructive when some
destructive pattern matches outside a safe context, or an unconditional
destructive phrase occurs. -/
def is_destructive_intent (user_message : String) : Bool :=
  if user_message.data.isEmpty then false
  else
    let message_lower := pyLower user_message.data
    if destructive_patterns.any (fun p =>
        reSearch p message_lower && !_is_safe_context user_message p) then true
    else destructive_keywords.any fun kw => containsSub kw.data message_lower

/-- `get_reformulation_suggestion` (lines 97-116). -/
def get_reformulation_suggestion (user_message : String) : String :=
  let message_lower := pyLower user_message.data
  if containsSub "create".data message_lower ||
      containsSub "add".data message_lower then
    "Instead, try: 'Show me existing records' or 'List current data'"
  else if containsSub "update".data message_lower ||
      containsSub "modify".data message_lower then
    "Instead, try: 'Show me the current values' or 'Display records that need updating'"
  else if containsSub "delete".data message_lower ||
      containsSub "remove".data message_lower then
    "Instead, try: 'Show me records to review' or 'List items matching criteria'"
  else
    "Try rephrasing as: 'Show me...', 'List...', 'Find...', or 'Count...'"

end AgentsSecurity

/-- C5 is false as stated for its third example: no destructive pattern
matches `update me on recent orders` (the update pattern demands a domain
noun right after the verb), so the classification is non-destructive
without the safe-context override ever being consulted — the claim's
"because of the safe-context override" does not hold. -/
theorem C5_counterexample :
    (AgentsSecurity.destructive_patterns.any fun p =>
      reSearch p (pyLower "update me on recent orders".data)) = false
    ∧ AgentsSecurity.is_destructive_intent "update me on recent orders" = false :=
  ⟨by decide, by decide⟩

/-- C5 (amended): the classifier returns destructive = false for
`show me all customers`; destructive = true for
`delete all customer records`, with the delete/remove-family reformulation
suggestion (`show records to review`); and destructive = false for
`update me on recent orders` — the latter because no destructive pattern
matches it, the safe-context override not being reached. -/
theorem C5_intent_classifier_cases :
    AgentsSecurity.is_destructive_intent "show me all customers" = false
    ∧ AgentsSecurity.is_destructive_intent "delete all customer records" = true
    ∧ AgentsSecurity.get_reformulation_suggestion "delete all customer records" =
        "Instead, try: 'Show me records to review' or 'List items matching criteria'"
    ∧ AgentsSecurity.is_destructive_intent "update me on recent orders" = false
    ∧ (AgentsSecurity.destructive_patterns.any fun p =>
        reSearch p (pyLower "update me on recent orders".data)) = false :=
  ⟨by decide, by decide, by decide, by decide, by decide⟩

end AgentspaceNeo4j
